import Mathlib

/-
Shallow embedding of the solbot event-ingestion and reaction pipeline.

Components embedded (from the JavaScript source):
* `TokenTracker` (src/services/tokenTracker.js): `getBalance`, `calculateSellAmount`.
* `RPCManager` (src/utils/rpcManager.js): endpoint-pool state, `shouldSwitchRPC`,
  `switchToNextRPC`, `getConnection`, `handleRateLimit`, `resetRateLimit`.
* `TradeExecutor` (src/services/tradeExecutor.js): the `isExecuting` guard and
  `executeSell`.
* `MempoolMonitorFree` (src/services/mempoolMonitorFree.js): constructor/start/stop
  state, the seen-signature set on both insertion paths, `parseHeliusTransaction`,
  and the per-transaction body of the `checkRecentTransactions` polling loop.
* `SolanaBot` (src/bot.js): `initialize` / `changeToken` wiring.

JavaScript numbers that hold lamport or SOL amounts are modelled as `ℚ`
(the claims under verification concern signs, magnitudes and threshold
comparisons, not binary floating-point rounding); token balances and sell
amounts are the integers the code manipulates; transaction signatures are
opaque identifiers, modelled as `Nat`; timestamps (`Date.now()`) are `Nat`
milliseconds.  Asynchronous calls that can fail are modelled with `Except`,
the awaited outcome being passed in as an explicit argument.
-/

namespace Solbot

/-! ### TokenTracker — src/services/tokenTracker.js -/

/-- One step of the character-list prefix test used by `stringIncludes`. -/
def charPrefix : List Char → List Char → Bool
  | [], _ => true
  | _ :: _, [] => false
  | p :: ps, c :: cs => p == c && charPrefix ps cs

/-- Substring search on character lists, the semantics of JavaScript
`String.prototype.includes`. -/
def charSub (pat : List Char) : List Char → Bool
  | [] => charPrefix pat []
  | c :: cs => charPrefix pat (c :: cs) || charSub pat cs

/-- JavaScript `msg.includes(pat)`. -/
def stringIncludes (msg pat : String) : Bool :=
  charSub pat.data msg.data

/-- `TokenTracker.getBalance` (tokenTracker.js:34-57).  The provider call
`getAccount(connection, tokenAccountAddress)` either resolves with the account
amount or throws with a message; the catch block converts the
`'could not find account'` failure to a balance of `0` and rethrows anything
else. -/
def getBalance (provider : Except String Nat) : Except String Nat :=
  match provider with
  | .ok amount => .ok amount
  | .error msg =>
      if stringIncludes msg "could not find account" then .ok 0 else .error msg

/-- `TokenTracker.calculateSellAmount` (tokenTracker.js:62-74): awaits
`getBalance()`, returns `0` when the balance is `0`, otherwise
`Math.floor((balance * percentage) / 100)`. -/
def calculateSellAmount (provider : Except String Nat) (percentage : ℚ) :
    Except String Int :=
  match getBalance provider with
  | .error msg => .error msg
  | .ok balance =>
      if balance = 0 then .ok 0
      else .ok ⌊((balance : ℚ) * percentage) / 100⌋

/-! ### RPCManager — src/utils/rpcManager.js -/

/-- `this.maxRateLimitCount = 3` (rpcManager.js:15). -/
def maxRateLimitCount : Nat := 3

/-- `this.switchCooldown = 30000` (rpcManager.js:18), milliseconds. -/
def switchCooldown : Nat := 30000

/-- The mutable fields of `RPCManager` that the rotation logic reads and
writes.  `connectionSet` is `this.connection !== null`; the endpoint lists
themselves are immutable, only their length matters for the index
arithmetic. -/
structure RPCState where
  numEndpoints : Nat
  currentRpcIndex : Nat
  rateLimitCount : Nat
  connectionSet : Bool
  lastSwitchTime : Nat
  deriving DecidableEq, Repr

/-- The constructor state (rpcManager.js:9-19): index 0, zero strikes, no
connection yet, `lastSwitchTime = 0`. -/
def initialRPCState (numEndpoints : Nat) : RPCState :=
  { numEndpoints := numEndpoints, currentRpcIndex := 0, rateLimitCount := 0,
    connectionSet := false, lastSwitchTime := 0 }

/-- `RPCManager.shouldSwitchRPC` (rpcManager.js:48-54), at wall-clock time
`now`.  (`Nat` truncated subtraction agrees with the JavaScript comparison:
when `now < lastSwitchTime` both sides answer `false`.) -/
def shouldSwitchRPC (s : RPCState) (now : Nat) : Bool :=
  maxRateLimitCount ≤ s.rateLimitCount && switchCooldown < now - s.lastSwitchTime

/-- `RPCManager.switchToNextRPC` (rpcManager.js:59-78): advance the index with
wrap-around, install a fresh connection, reset the strike counter, stamp the
switch time. -/
def switchToNextRPC (s : RPCState) (now : Nat) : RPCState :=
  { s with currentRpcIndex := (s.currentRpcIndex + 1) % s.numEndpoints,
           connectionSet := true,
           rateLimitCount := 0,
           lastSwitchTime := now }

/-- `RPCManager.getConnection` (rpcManager.js:24-29).  The `Bool` component
records whether this call rotated (ran `switchToNextRPC`). -/
def getConnection (s : RPCState) (now : Nat) : RPCState × Bool :=
  if s.connectionSet = false || shouldSwitchRPC s now then
    (switchToNextRPC s now, true)
  else
    (s, false)

/-- `RPCManager.handleRateLimit` (rpcManager.js:83-91): record the strike,
then rotate if `shouldSwitchRPC` now holds.  The `Bool` component records
whether this call rotated. -/
def handleRateLimit (s : RPCState) (now : Nat) : RPCState × Bool :=
  let s' := { s with rateLimitCount := s.rateLimitCount + 1 }
  if shouldSwitchRPC s' now then (switchToNextRPC s' now, true) else (s', false)

/-- `RPCManager.resetRateLimit` (rpcManager.js:96-100). -/
def resetRateLimit (s : RPCState) : RPCState :=
  if 0 < s.rateLimitCount then { s with rateLimitCount := s.rateLimitCount - 1 }
  else s

/-! ### TradeExecutor — src/services/tradeExecutor.js -/

/-- The executor fields the claims depend on: the mint it was constructed
with (tradeExecutor.js:22) and the execution guard (tradeExecutor.js:24). -/
structure ExecutorState where
  tokenMint : String
  isExecuting : Bool
  deriving DecidableEq, Repr

/-- `TradeExecutor` constructor (tradeExecutor.js:19-25). -/
def mkTradeExecutor (tokenMint : String) : ExecutorState :=
  { tokenMint := tokenMint, isExecuting := false }

/-- The success value of `executeSell` (tradeExecutor.js:72-76). -/
structure SellResult where
  signature : Nat
  amount : Int
  timestamp : Nat
  deriving DecidableEq, Repr

/-- The observable trace of one `executeSell` call: the returned value
(`none` models the JavaScript `null`), the executor state after the call,
the mint a transaction was built and submitted for (`none` when the call was
a no-op and nothing was built), and the value the guard held while the body
(build + submit) ran. -/
structure SellCall where
  result : Option SellResult
  final : ExecutorState
  builtMint : Option String
  guardDuring : Bool
  deriving DecidableEq, Repr

/-- `TradeExecutor.executeSell` (tradeExecutor.js:30-83).  `submit` is the
awaited outcome of `sendAndConfirmTransaction` (`.ok signature`, or `.error`
for any thrown failure); the `finally` block clears the guard on every exit
path of the `try`. -/
def executeSell (s : ExecutorState) (amount : Int) (submit : Except String Nat)
    (now : Nat) : SellCall :=
  if s.isExecuting then
    { result := none, final := s, builtMint := none, guardDuring := s.isExecuting }
  else if amount ≤ 0 then
    { result := none, final := s, builtMint := none, guardDuring := s.isExecuting }
  else
    let running : ExecutorState := { s with isExecuting := true }
    let result : Option SellResult :=
      match submit with
      | .ok signature => some { signature := signature, amount := amount, timestamp := now }
      | .error _ => none
    { result := result,
      final := { running with isExecuting := false },
      builtMint := some s.tokenMint,
      guardDuring := running.isExecuting }

/-! ### MempoolMonitorFree — src/services/mempoolMonitorFree.js -/

/-- `this.maxProcessedSignatures = 1000` (mempoolMonitorFree.js:21), the
intended cap of the seen-signature set. -/
def maxProcessedSignatures : Nat := 1000

/-- The monitor fields the claims depend on.  `processedSignatures` models
the JavaScript `Set` of signatures: signatures are distinct and listed in
insertion order, oldest first (`Set.prototype.values` iterates in insertion
order, so `values().next().value` is the head). -/
structure MonitorState where
  targetToken : Option String
  isRunning : Bool
  processedSignatures : List Nat
  pollingActive : Bool
  heartbeatActive : Bool
  subscriptionId : Option Nat
  accountSubscriptionId : Option Nat
  deriving DecidableEq, Repr

/-- `MempoolMonitorFree` constructor (mempoolMonitorFree.js:11-23). -/
def mkMonitor (targetToken : Option String) : MonitorState :=
  { targetToken := targetToken, isRunning := false, processedSignatures := [],
    pollingActive := false, heartbeatActive := false,
    subscriptionId := none, accountSubscriptionId := none }

/-- `MempoolMonitorFree.start` (mempoolMonitorFree.js:29-62): a no-op when
already running or when no target token is set; otherwise marks the monitor
running and installs the polling and heartbeat timers. -/
def startMonitor (s : MonitorState) : MonitorState :=
  if s.isRunning then s
  else
    match s.targetToken with
    | none => s
    | some _ =>
        { s with isRunning := true, pollingActive := true, heartbeatActive := true }

/-- `MempoolMonitorFree.stop` (mempoolMonitorFree.js:507-550): a no-op when
not running; otherwise removes both subscriptions, clears both timers, marks
the monitor stopped and clears `processedSignatures`. -/
def stopMonitor (s : MonitorState) : MonitorState :=
  if s.isRunning = false then s
  else
    { s with subscriptionId := none, accountSubscriptionId := none,
             pollingActive := false, heartbeatActive := false,
             isRunning := false, processedSignatures := [] }

/-- The seen-set prologue of `MempoolMonitorFree.processTransactionLogs`
(mempoolMonitorFree.js:67-82): skip an already-seen signature, otherwise add
it and, when the set has grown past `maxProcessedSignatures`, delete the
oldest entry (the head). -/
def logsPathInsert (seen : List Nat) (sig : Nat) : List Nat :=
  if seen.contains sig then seen
  else
    let seen' := seen ++ [sig]
    if maxProcessedSignatures < seen'.length then seen'.tail else seen'

/-- One parsed transaction as returned by the Helius Parse API, restricted to
the fields `parseHeliusTransaction` and the polling loop read: `signature`
(may be absent), `type`, `nativeTransfers` (an entry is `none` when its
`amount` is not a number and is then skipped), `tokenTransfers` (only its
length is used). -/
structure ParsedTx where
  signature : Option Nat
  txType : String
  nativeTransfers : List (Option ℚ)
  tokenTransfers : List Unit
  deriving DecidableEq

/-- The running sum `solAmount` of `parseHeliusTransaction`
(mempoolMonitorFree.js:634-639): each numeric `transfer.amount` contributes
`amount / 1e9`. -/
def netSolAmount (tx : ParsedTx) : ℚ :=
  tx.nativeTransfers.foldl
    (fun acc a =>
      match a with
      | some amount => acc + amount / 1e9
      | none => acc)
    0

/-- The value `parseHeliusTransaction` returns (mempoolMonitorFree.js:661-667),
restricted to the fields its callers read. -/
structure TxInfo where
  type : String
  solAmount : ℚ
  tokenAmount : Nat
  transactionType : String
  deriving DecidableEq

/-- `MempoolMonitorFree.parseHeliusTransaction` (mempoolMonitorFree.js:617-678):
a `SWAP` with positive summed native movement is a `buy`, a `SWAP` otherwise
is a `sell`; a non-`SWAP` with positive movement is a `transaction`,
otherwise the default `pump`; the returned `solAmount` is always the
absolute value of the sum, and `tokenAmount` is `tokenTransfers.length`. -/
def parseHeliusTransaction (tx : ParsedTx) : TxInfo :=
  let solAmount := netSolAmount tx
  let transactionType : String :=
    if tx.txType = "SWAP" then
      if 0 < solAmount then "buy" else "sell"
    else if 0 < solAmount then "transaction"
    else "pump"
  { type := transactionType, solAmount := |solAmount|,
    tokenAmount := tx.tokenTransfers.length, transactionType := transactionType }

/-- One event emitted to the web presentation sink
(`webServer.emitTransaction`, mempoolMonitorFree.js:286-295), restricted to
the fields the claims mention. -/
structure Emission where
  signature : Nat
  type : String
  solAmount : ℚ
  tokenAmount : Nat
  transactionType : String
  deriving DecidableEq

/-- The body of the per-transaction loop of
`MempoolMonitorFree.checkRecentTransactions` (mempoolMonitorFree.js:269-309):
skip when the signature is absent or already seen; otherwise add it to the
seen set (with no eviction on this path), parse the transaction, emit it to
the web sink when one is attached, and invoke `onBuyDetected` exactly when
the parsed type is `buy` and the parsed amount is at least the literal
`0.2`.  Returns (new seen set, emissions, handler invocations as
(signature, solAmount) pairs). -/
def pollProcessTx (hasWeb : Bool) (seen : List Nat) (tx : ParsedTx) :
    List Nat × List Emission × List (Nat × ℚ) :=
  match tx.signature with
  | none => (seen, [], [])
  | some sig =>
      if seen.contains sig then (seen, [], [])
      else
        let seen' := seen ++ [sig]
        let info := parseHeliusTransaction tx
        let emissions : List Emission :=
          if hasWeb then
            [{ signature := sig, type := info.type, solAmount := info.solAmount,
               tokenAmount := info.tokenAmount, transactionType := info.transactionType }]
          else []
        let handlers : List (Nat × ℚ) :=
          if info.transactionType = "buy" ∧ (0.2 : ℚ) ≤ info.solAmount then
            [(sig, info.solAmount)]
          else []
        (seen', emissions, handlers)

/-- Folding `pollProcessTx` over the accumulated state: the outer `for` loop
of `checkRecentTransactions` over the parsed transactions. -/
def pollStep (hasWeb : Bool) (acc : List Nat × List Emission × List (Nat × ℚ))
    (tx : ParsedTx) : List Nat × List Emission × List (Nat × ℚ) :=
  let r := pollProcessTx hasWeb acc.1 tx
  (r.1, acc.2.1 ++ r.2.1, acc.2.2 ++ r.2.2)

/-- One whole pass of the polling loop over a list of parsed transactions. -/
def pollProcessAll (hasWeb : Bool) (seen : List Nat) (txs : List ParsedTx) :
    List Nat × List Emission × List (Nat × ℚ) :=
  txs.foldl (pollStep hasWeb) (seen, [], [])

/-- A parsed transaction of no particular shape carrying signature `i`, used
to drive the polling loop with distinct signatures. -/
def mkOpaqueTx (i : Nat) : ParsedTx :=
  { signature := some i, txType := "UNKNOWN", nativeTransfers := [], tokenTransfers := [] }

/-- `config.buyThresholdSol` (src/config.js:28):
`parseFloat(process.env.BUY_THRESHOLD_SOL || '0.2')` — the configured
buy-value threshold, defaulting to `0.2` when the environment variable is
absent. -/
def buyThresholdSol (env : Option ℚ) : ℚ :=
  match env with
  | some q => q
  | none => 0.2

/-! ### SolanaBot — src/bot.js -/

/-- The orchestrator fields `changeToken` touches: which mint the
`TokenTracker` is bound to, the monitor, the trade executor, and the running
flag. -/
structure BotState where
  trackerToken : String
  monitor : MonitorState
  executor : ExecutorState
  isRunning : Bool
  deriving DecidableEq, Repr

/-- `SolanaBot.initialize` (bot.js:25-124), restricted to the wiring of the
three services: monitor, tracker and executor are all built for
`config.targetTokenAddress`. -/
def initializeBot (targetToken : String) : BotState :=
  { trackerToken := targetToken,
    monitor := mkMonitor (some targetToken),
    executor := mkTradeExecutor targetToken,
    isRunning := false }

/-- `SolanaBot.changeToken` (bot.js:209-254): stop the old monitor, rebuild
the `TokenTracker` and the `MempoolMonitorFree` for the new token, restart
monitoring when the bot is running.  `this.tradeExecutor` is never
reassigned. -/
def changeToken (s : BotState) (newToken : String) : BotState :=
  let _oldMonitor := stopMonitor s.monitor
  let fresh := mkMonitor (some newToken)
  let monitor := if s.isRunning then startMonitor fresh else fresh
  { s with trackerToken := newToken, monitor := monitor }

/-! ### C3 — calculateSellAmount -/

/-- C3: for every balance `B ≥ 0` (a `Nat`) and every disposal percentage
`P`, `calculateSellAmount` returns `⌊B * P / 100⌋`, and returns `0` whenever
the balance is `0`, for any `P`. -/
theorem calculateSellAmount_floor (balance : Nat) (percentage : ℚ) :
    calculateSellAmount (.ok balance) percentage
      = .ok ⌊((balance : ℚ) * percentage) / 100⌋ ∧
    calculateSellAmount (.ok 0) percentage = .ok 0 := by
  constructor
  · by_cases h : balance = 0
    · subst h
      simp [calculateSellAmount, getBalance]
    · simp [calculateSellAmount, getBalance, h]
  · simp [calculateSellAmount, getBalance]

/-! ### C8 — getBalance -/

/-- C8: `getBalance` converts exactly the provider failure whose message
contains `'could not find account'` (the account does not exist on the
ledger) into the normal result `0`; every other provider failure is
re-raised, and a successful provider response passes through. -/
theorem getBalance_account_not_found (msg : String) (amount : Nat) :
    getBalance (.ok amount) = .ok amount ∧
    (stringIncludes msg "could not find account" = true →
      getBalance (.error msg) = .ok 0) ∧
    (stringIncludes msg "could not find account" = false →
      getBalance (.error msg) = .error msg) := by
  refine ⟨rfl, fun h => ?_, fun h => ?_⟩ <;> simp [getBalance, h]

/-- C8 witness: a not-found failure yields balance `0`; an unrelated failure
is re-raised. -/
theorem getBalance_account_not_found_witness :
    getBalance (.error "TokenAccountNotFoundError: could not find account at address")
      = .ok 0 ∧
    getBalance (.error "HTTP 500") = .error "HTTP 500" :=
  ⟨(getBalance_account_not_found
      "TokenAccountNotFoundError: could not find account at address" 0).2.1 (by rfl),
   (getBalance_account_not_found "HTTP 500" 0).2.2 (by rfl)⟩

/-! ### C1 — executeSell execution guard -/

/-- C1: `executeSell` returns the no-op result (`none`, the JavaScript
`null`) without building or submitting a transaction and without touching
the state when the guard is already set or the amount is non-positive;
otherwise the guard is set while the body runs, a transaction is built for
the executor's mint, the call returns `{signature, amount, timestamp}` when
submission succeeds and `none` when it throws, and on every such path the
guard is false again after the call. -/
theorem executeSell_guard (s : ExecutorState) (amount : Int)
    (submit : Except String Nat) (now : Nat) :
    (s.isExecuting = true ∨ amount ≤ 0 →
      (executeSell s amount submit now).result = none ∧
      (executeSell s amount submit now).builtMint = none ∧
      (executeSell s amount submit now).final = s) ∧
    (s.isExecuting = false → 0 < amount →
      (executeSell s amount submit now).guardDuring = true ∧
      (executeSell s amount submit now).final.isExecuting = false ∧
      (executeSell s amount submit now).builtMint = some s.tokenMint ∧
      (∀ sig, submit = .ok sig →
        (executeSell s amount submit now).result
          = some { signature := sig, amount := amount, timestamp := now }) ∧
      (∀ e, submit = .error e →
        (executeSell s amount submit now).result = none)) := by
  constructor
  · rintro (hg | ha)
    · simp [executeSell, hg]
    · by_cases hg : s.isExecuting <;> simp [executeSell, hg, ha]
  · intro hg ha
    have ha' : ¬ amount ≤ 0 := not_le.mpr ha
    refine ⟨by simp [executeSell, hg, ha'], by simp [executeSell, hg, ha'],
            by simp [executeSell, hg, ha'], ?_, ?_⟩
    · intro sig hs
      subst hs
      simp [executeSell, hg, ha']
    · intro e hs
      subst hs
      simp [executeSell, hg, ha']

/-- C1 witness: a successful call holds the guard during the body and
releases it; a failed submission also releases it and returns the no-op
result; a call issued while the guard is set returns the no-op result. -/
theorem executeSell_guard_witness :
    (executeSell (mkTradeExecutor "mintA") 5 (.ok 9) 3).guardDuring = true ∧
    (executeSell (mkTradeExecutor "mintA") 5 (.ok 9) 3).final.isExecuting = false ∧
    (executeSell (mkTradeExecutor "mintA") 5 (.ok 9) 3).result
      = some { signature := 9, amount := 5, timestamp := 3 } ∧
    (executeSell (mkTradeExecutor "mintA") 5 (.error "network down") 3).result = none ∧
    (executeSell (mkTradeExecutor "mintA") 5 (.error "network down") 3).final.isExecuting
      = false ∧
    (executeSell { tokenMint := "mintA", isExecuting := true } 5 (.ok 9) 3).result = none := by
  have h1 := (executeSell_guard (mkTradeExecutor "mintA") 5 (.ok 9) 3).2 rfl (by decide)
  have h2 := (executeSell_guard (mkTradeExecutor "mintA") 5 (.error "network down") 3).2
    rfl (by decide)
  have h3 := (executeSell_guard { tokenMint := "mintA", isExecuting := true } 5
    (.ok 9) 3).1 (Or.inl rfl)
  exact ⟨h1.1, h1.2.1, h1.2.2.2.1 9 rfl, h2.2.2.2.2 "network down" rfl, h2.2.1, h3.1⟩

/-! ### C5 — endpoint rotation policy -/

/-- C5 counterexample: on the pool's initial (reachable) state no connection
exists yet, and the very first `getConnection` rotates the endpoint index
although zero failures are recorded and the 30 s cooldown since
`lastSwitchTime = 0` has not elapsed. -/
theorem rpc_first_getConnection_rotates :
    (getConnection (initialRPCState 2) 100).2 = true ∧
    (initialRPCState 2).rateLimitCount < maxRateLimitCount ∧
    ¬ switchCooldown < 100 - (initialRPCState 2).lastSwitchTime ∧
    (getConnection (initialRPCState 2) 100).1.currentRpcIndex
      ≠ (initialRPCState 2).currentRpcIndex := by
  decide

/-- C5 (amended): in every pool state in which a connection has been
established, a rotation through `getConnection` or `handleRateLimit` occurs
only when the recorded failure count (for `handleRateLimit`, counting the
failure just recorded) has reached the strike limit of 3 and more than the
30 s cooldown has passed since the last rotation; fewer failures, or
failures within the cooldown window, never rotate. -/
theorem rpc_rotation_needs_strikes_and_cooldown (s : RPCState) (now : Nat)
    (hconn : s.connectionSet = true) :
    ((getConnection s now).2 = true →
      maxRateLimitCount ≤ s.rateLimitCount ∧
      switchCooldown < now - s.lastSwitchTime) ∧
    ((handleRateLimit s now).2 = true →
      maxRateLimitCount ≤ s.rateLimitCount + 1 ∧
      switchCooldown < now - s.lastSwitchTime) := by
  constructor
  · intro h
    cases hb : shouldSwitchRPC s now with
    | true => simpa [shouldSwitchRPC] using hb
    | false =>
        exfalso
        simp [getConnection, hconn, hb] at h
  · intro h
    cases hb : shouldSwitchRPC { s with rateLimitCount := s.rateLimitCount + 1 } now with
    | true => simpa [shouldSwitchRPC] using hb
    | false =>
        exfalso
        simp [handleRateLimit, hb] at h

/-- C5 witness: with a connection established, three strikes and an elapsed
cooldown, `getConnection` rotates and the amended precondition holds at that
input. -/
theorem rpc_rotation_needs_strikes_and_cooldown_witness :
    maxRateLimitCount ≤ 3 ∧ switchCooldown < 40000 - 0 :=
  (rpc_rotation_needs_strikes_and_cooldown
    { numEndpoints := 2, currentRpcIndex := 1, rateLimitCount := 3,
      connectionSet := true, lastSwitchTime := 0 } 40000 rfl).1 (by decide)

/-! ### C2 — handler-invocation threshold -/

/-- C2 counterexample: with the configured threshold set to 0.5 SOL (a legal
`BUY_THRESHOLD_SOL` value), a fresh SWAP buy of 0.3 SOL still invokes the
registered handler: the polling loop compares against the literal `0.2`, not
against `config.buyThresholdSol`. -/
theorem monitor_handler_ignores_configured_threshold :
    (pollProcessTx true []
        { signature := some 7, txType := "SWAP",
          nativeTransfers := [some 300000000], tokenTransfers := [] }).2.2
      = [(7, (3 : ℚ) / 10)] ∧
    (3 : ℚ) / 10 < buyThresholdSol (some (1 / 2)) := by
  constructor
  · norm_num [pollProcessTx, parseHeliusTransaction, netSolAmount, abs_of_nonneg]
  · norm_num [buyThresholdSol]

/-- C2 (amended): for every fresh classified event of the polling loop, the
registered handler is invoked if and only if the parsed kind is `buy` and
the parsed value is at least the monitor's hard-coded `0.2`; and every fresh
`buy` — in particular one below `0.2`, which triggers no handler — is still
emitted to the presentation sink as a `buy` carrying its value. -/
theorem monitor_handler_fixed_threshold (seen : List Nat) (tx : ParsedTx) (sig : Nat)
    (hsig : tx.signature = some sig) (hfresh : seen.contains sig = false) :
    ((parseHeliusTransaction tx).transactionType = "buy" ∧
        (0.2 : ℚ) ≤ (parseHeliusTransaction tx).solAmount →
      (pollProcessTx true seen tx).2.2
        = [(sig, (parseHeliusTransaction tx).solAmount)]) ∧
    (¬ ((parseHeliusTransaction tx).transactionType = "buy" ∧
        (0.2 : ℚ) ≤ (parseHeliusTransaction tx).solAmount) →
      (pollProcessTx true seen tx).2.2 = []) ∧
    ((parseHeliusTransaction tx).transactionType = "buy" →
      (pollProcessTx true seen tx).2.1
        = [{ signature := sig, type := (parseHeliusTransaction tx).type,
             solAmount := (parseHeliusTransaction tx).solAmount,
             tokenAmount := (parseHeliusTransaction tx).tokenAmount,
             transactionType := (parseHeliusTransaction tx).transactionType }]) := by
  have hmem : sig ∉ seen := by simpa using hfresh
  refine ⟨fun h => ?_, fun h => ?_, fun h => ?_⟩ <;>
    simp [pollProcessTx, hsig, hmem, h]

/-- C2 witness: a fresh SWAP buy of 0.25 SOL invokes the handler with its
value; a fresh SWAP buy of 0.1 SOL invokes no handler but is still emitted
as a `buy` of value 0.1. -/
theorem monitor_handler_fixed_threshold_witness :
    (pollProcessTx true []
        { signature := some 8, txType := "SWAP",
          nativeTransfers := [some 250000000], tokenTransfers := [] }).2.2
      = [(8, (1 : ℚ) / 4)] ∧
    (pollProcessTx true []
        { signature := some 9, txType := "SWAP",
          nativeTransfers := [some 100000000], tokenTransfers := [] }).2.2 = [] ∧
    (pollProcessTx true []
        { signature := some 9, txType := "SWAP",
          nativeTransfers := [some 100000000], tokenTransfers := [] }).2.1
      = [{ signature := 9, type := "buy", solAmount := (1 : ℚ) / 10,
           tokenAmount := 0, transactionType := "buy" }] := by
  have hp8 : parseHeliusTransaction
      { signature := some 8, txType := "SWAP",
        nativeTransfers := [some 250000000], tokenTransfers := [] }
      = { type := "buy", solAmount := (1 : ℚ) / 4, tokenAmount := 0,
          transactionType := "buy" } := by
    norm_num [parseHeliusTransaction, netSolAmount, abs_of_nonneg]
  have hp9 : parseHeliusTransaction
      { signature := some 9, txType := "SWAP",
        nativeTransfers := [some 100000000], tokenTransfers := [] }
      = { type := "buy", solAmount := (1 : ℚ) / 10, tokenAmount := 0,
          transactionType := "buy" } := by
    norm_num [parseHeliusTransaction, netSolAmount, abs_of_nonneg]
  refine ⟨?_, ?_, ?_⟩
  · have h := (monitor_handler_fixed_threshold []
      { signature := some 8, txType := "SWAP",
        nativeTransfers := [some 250000000], tokenTransfers := [] } 8 rfl rfl).1
      (by rw [hp8]; exact ⟨rfl, by norm_num⟩)
    rw [hp8] at h
    simpa using h
  · exact (monitor_handler_fixed_threshold []
      { signature := some 9, txType := "SWAP",
        nativeTransfers := [some 100000000], tokenTransfers := [] } 9 rfl rfl).2.1
      (by rw [hp9]; rintro ⟨-, hle⟩; norm_num at hle)
  · have h := (monitor_handler_fixed_threshold []
      { signature := some 9, txType := "SWAP",
        nativeTransfers := [some 100000000], tokenTransfers := [] } 9 rfl rfl).2.2
      (by rw [hp9])
    rw [hp9] at h
    simpa using h

/-! ### C4 — seen-signature set cap -/

/-- Driving the polling loop from an empty seen set with the opaque
transactions carrying signatures `0, …, n-1` accumulates exactly those
signatures: this insertion path never evicts. -/
theorem pollAll_range (hasWeb : Bool) (n : Nat) :
    (pollProcessAll hasWeb [] ((List.range n).map mkOpaqueTx)).1 = List.range n := by
  induction n with
  | zero => rfl
  | succ n ih =>
      have hstep : pollProcessAll hasWeb [] ((List.range (n + 1)).map mkOpaqueTx)
          = pollStep hasWeb (pollProcessAll hasWeb [] ((List.range n).map mkOpaqueTx))
              (mkOpaqueTx n) := by
        rw [List.range_succ, List.map_append]
        simp [pollProcessAll, List.foldl_append]
      have hn : n ∉ List.range n := by simp
      rw [hstep]
      simp [pollStep, pollProcessTx, mkOpaqueTx, ih, hn, List.range_succ]

/-- C4: the polling insertion path (`checkRecentTransactions`) violates the
seen-signature cap — after 1001 distinct signatures its set holds
`maxProcessedSignatures + 1 = 1001` entries, because unlike the
log-subscription path it never evicts. -/
theorem pollingPath_seen_set_exceeds_cap :
    ((pollProcessAll true []
        ((List.range (maxProcessedSignatures + 1)).map mkOpaqueTx)).1).length
      = maxProcessedSignatures + 1 := by
  rw [pollAll_range]
  exact List.length_range _

/-! ### C6 — idempotent dedup on the polling pipeline -/

/-- C6: feeding the same signature through the polling pipeline twice within
one running monitor yields exactly one emitted classified event: the first
(fresh) pass emits one event, the second pass is filtered by the
seen-signature set and produces no emission, no handler invocation and no
state change. -/
theorem monitor_dedup_idempotent (seen : List Nat) (tx : ParsedTx) (sig : Nat)
    (hsig : tx.signature = some sig) (hfresh : seen.contains sig = false) :
    (pollProcessTx true seen tx).2.1.length = 1 ∧
    (pollProcessTx true (pollProcessTx true seen tx).1 tx).2.1 = [] ∧
    (pollProcessTx true (pollProcessTx true seen tx).1 tx).2.2 = [] ∧
    (pollProcessTx true (pollProcessTx true seen tx).1 tx).1
      = (pollProcessTx true seen tx).1 := by
  have hmem : sig ∉ seen := by simpa using hfresh
  have h1 : (pollProcessTx true seen tx).1 = seen ++ [sig] := by
    simp [pollProcessTx, hsig, hmem]
  rw [h1]
  refine ⟨?_, ?_, ?_, ?_⟩ <;> simp [pollProcessTx, hsig, hmem]

/-- C6 witness: signature 7 processed twice from an empty seen set — one
emission on the first pass, nothing on the second. -/
theorem monitor_dedup_idempotent_witness :
    (pollProcessTx true []
        { signature := some 7, txType := "SWAP",
          nativeTransfers := [some 300000000], tokenTransfers := [] }).2.1.length = 1 ∧
    (pollProcessTx true
        (pollProcessTx true []
          { signature := some 7, txType := "SWAP",
            nativeTransfers := [some 300000000], tokenTransfers := [] }).1
        { signature := some 7, txType := "SWAP",
          nativeTransfers := [some 300000000], tokenTransfers := [] }).2.1 = [] := by
  have h := monitor_dedup_idempotent []
    { signature := some 7, txType := "SWAP",
      nativeTransfers := [some 300000000], tokenTransfers := [] } 7 rfl rfl
  exact ⟨h.1, h.2.1⟩

/-! ### C7 — SWAP outflow classifies as sell -/

/-- C7: every SWAP-typed parsed transaction whose net native movement is
negative classifies as a `sell` whose value is the outflow's magnitude. -/
theorem swap_outflow_classified_sell (tx : ParsedTx)
    (hswap : tx.txType = "SWAP") (hneg : netSolAmount tx < 0) :
    (parseHeliusTransaction tx).transactionType = "sell" ∧
    (parseHeliusTransaction tx).solAmount = |netSolAmount tx| ∧
    (parseHeliusTransaction tx).type = "sell" := by
  have hpos : ¬ 0 < netSolAmount tx := not_lt.mpr hneg.le
  refine ⟨?_, ?_, ?_⟩ <;> simp [parseHeliusTransaction, hswap, hpos]

/-- C7 witness: a SWAP with a single native outflow of 0.5 SOL is classified
`sell` with value 0.5. -/
theorem swap_outflow_classified_sell_witness :
    (parseHeliusTransaction
        { signature := some 1, txType := "SWAP",
          nativeTransfers := [some (-500000000)], tokenTransfers := [] }).transactionType
      = "sell" ∧
    (parseHeliusTransaction
        { signature := some 1, txType := "SWAP",
          nativeTransfers := [some (-500000000)], tokenTransfers := [] }).solAmount
      = (1 : ℚ) / 2 := by
  have h := swap_outflow_classified_sell
    { signature := some 1, txType := "SWAP",
      nativeTransfers := [some (-500000000)], tokenTransfers := [] } rfl
    (by norm_num [netSolAmount])
  refine ⟨h.1, ?_⟩
  rw [h.2.1]
  norm_num [netSolAmount, abs_of_nonpos]

/-! ### C10 — stop clears monitor state -/

/-- C10: stopping a running monitor empties the seen-signature set, clears
the polling and heartbeat timers and resets `isRunning`; deduplication does
not survive the stop/start cycle — a signature that was filtered before the
stop (no emission) is classified and emitted again after the restart. -/
theorem stop_clears_and_dedup_not_persistent (s : MonitorState) (t : String)
    (tx : ParsedTx) (sig : Nat)
    (hrun : s.isRunning = true) (htok : s.targetToken = some t)
    (hsig : tx.signature = some sig)
    (hseen : s.processedSignatures.contains sig = true) :
    (stopMonitor s).processedSignatures = [] ∧
    (stopMonitor s).pollingActive = false ∧
    (stopMonitor s).heartbeatActive = false ∧
    (stopMonitor s).isRunning = false ∧
    (pollProcessTx true s.processedSignatures tx).2.1 = [] ∧
    (startMonitor (stopMonitor s)).isRunning = true ∧
    (pollProcessTx true (startMonitor (stopMonitor s)).processedSignatures tx).2.1.length
      = 1 := by
  have hmem : sig ∈ s.processedSignatures := by simpa using hseen
  refine ⟨?_, ?_, ?_, ?_, ?_, ?_, ?_⟩
  · simp [stopMonitor, hrun]
  · simp [stopMonitor, hrun]
  · simp [stopMonitor, hrun]
  · simp [stopMonitor, hrun]
  · simp [pollProcessTx, hsig, hmem]
  · simp [startMonitor, stopMonitor, hrun, htok]
  · simp [startMonitor, stopMonitor, hrun, htok, pollProcessTx, hsig]

/-- C10 witness: a concrete running monitor that has already processed
signature 5 — after stop/start, signature 5 is emitted again. -/
theorem stop_clears_and_dedup_not_persistent_witness :
    (stopMonitor
        { targetToken := some "tok", isRunning := true, processedSignatures := [5],
          pollingActive := true, heartbeatActive := true,
          subscriptionId := none, accountSubscriptionId := none }).processedSignatures
      = [] ∧
    (pollProcessTx true
        (startMonitor (stopMonitor
          { targetToken := some "tok", isRunning := true, processedSignatures := [5],
            pollingActive := true, heartbeatActive := true,
            subscriptionId := none, accountSubscriptionId := none })).processedSignatures
        (mkOpaqueTx 5)).2.1.length = 1 := by
  have h := stop_clears_and_dedup_not_persistent
    { targetToken := some "tok", isRunning := true, processedSignatures := [5],
      pollingActive := true, heartbeatActive := true,
      subscriptionId := none, accountSubscriptionId := none }
    "tok" (mkOpaqueTx 5) 5 rfl rfl rfl (by decide)
  exact ⟨h.1, h.2.2.2.2.2.2⟩

/-! ### C9 — changeToken leaves the executor untouched -/

/-- `changeToken` rewires the tracker and the monitor but never reassigns
`this.tradeExecutor`. -/
theorem changeToken_executor_eq (s : BotState) (newToken : String) :
    (changeToken s newToken).executor = s.executor := rfl

/-- Any sequence of `changeToken` calls leaves the executor field as it
was. -/
theorem foldl_changeToken_executor (tokens : List String) (s : BotState) :
    (tokens.foldl changeToken s).executor = s.executor := by
  induction tokens generalizing s with
  | nil => rfl
  | cons t ts ih => exact (ih (changeToken s t)).trans rfl

/-- C9: `changeToken` rebuilds the tracker and the monitor for the new token
but leaves the orchestrator's executor field unchanged, so after any
sequence of token changes the executor is still bound to the mint supplied
at initialization, and any sell it then executes builds its instruction for
that original mint, not the new one. -/
theorem changeToken_leaves_executor_bound (s : BotState) (newToken target : String)
    (tokens : List String) :
    (changeToken s newToken).executor = s.executor ∧
    (changeToken s newToken).trackerToken = newToken ∧
    (changeToken s newToken).monitor.targetToken = some newToken ∧
    (tokens.foldl changeToken (initializeBot target)).executor.tokenMint = target ∧
    (∀ (amount : Int) (submit : Except String Nat) (now : Nat), 0 < amount →
      (executeSell (tokens.foldl changeToken (initializeBot target)).executor
          amount submit now).builtMint = some target) := by
  have hexec : (tokens.foldl changeToken (initializeBot target)).executor
      = mkTradeExecutor target :=
    foldl_changeToken_executor tokens (initializeBot target)
  refine ⟨rfl, rfl, ?_, ?_, ?_⟩
  · by_cases hr : s.isRunning <;> simp [changeToken, startMonitor, mkMonitor, hr]
  · rw [hexec]
    rfl
  · intro amount submit now h
    rw [hexec]
    simp [executeSell, mkTradeExecutor, not_le.mpr h]

/-- C9 witness: after changing the token twice from `orig`, the executor is
still bound to `orig` and a sell of 5 tokens builds its instruction for
`orig`. -/
theorem changeToken_leaves_executor_bound_witness :
    (["newA", "newB"].foldl changeToken (initializeBot "orig")).executor.tokenMint
      = "orig" ∧
    (executeSell (["newA", "newB"].foldl changeToken (initializeBot "orig")).executor
        5 (.ok 9) 3).builtMint = some "orig" := by
  have h := changeToken_leaves_executor_bound (initializeBot "orig") "newA" "orig"
    ["newA", "newB"]
  exact ⟨h.2.2.2.1, h.2.2.2.2 5 (.ok 9) 3 (by decide)⟩

end Solbot
